import Mathlib

/-!
# Flowchart generator: a shallow embedding with correctness proofs

This file embeds the core of the flowchart-generator repository in Lean 4:

* the data model of `src/types/flowchart.ts` (nodes, edges, shapes, edge
  styles, question categories, single and compound conditions);
* the Mermaid serializer of `src/lib/flowchartGenerator.ts`
  (`FlowchartGenerator.generate` and its helpers);
* the node-id validation of `src/lib/validation.ts`;
* the state-node registry and graph-mutation handlers of
  `src/app/page.tsx` (`generateStateNodeId`, `generateStateNodeLabel`,
  `conditionNodes`, `handleAddCondition`, `removeNode`);
* the connection-commit handler of `src/components/NodeEditDialog.tsx`
  (`handleAddConnection` with its compound-condition guard).

TypeScript strings are Lean `String`s; optional fields are `Option`s;
JavaScript truthiness tests on strings (`if (s)`) are translated as
emptiness tests, and on optional values as `isSome` tests.  JavaScript
numbers that the code only ever turns into decimal text are modelled as
`Int`.  All definitions are executable, so concrete scenarios can be
settled by `decide`.
-/

/-- `Array.prototype.join(sep)`: interleave `sep` between the elements. -/
def joinSep (sep : String) : List String → String
  | [] => ""
  | [x] => x
  | x :: xs => x ++ sep ++ joinSep sep xs

/-- `String.prototype.replace(/target/g, rep)` for a single-character
pattern: replace every occurrence of the character `target` by `rep`. -/
def replaceChar (target : Char) (rep : String) (s : String) : String :=
  String.mk ((s.data.map (fun c => if c = target then rep.data else [c])).flatten)

/-! ## Data model (`src/types/flowchart.ts`) -/

/-- Flowchart direction. -/
inductive FlowchartDirection where
  | TB | TD | BT | LR | RL
deriving DecidableEq

def dirToString : FlowchartDirection → String
  | .TB => "TB" | .TD => "TD" | .BT => "BT" | .LR => "LR" | .RL => "RL"

/-- The 14 node shapes. -/
inductive NodeShape where
  | rectangle | round | stadium | subroutine | database | circle
  | doubleCircle | asymmetric | rhombus | hexagon | parallelogram
  | parallelogramAlt | trapezoid | trapezoidAlt
deriving DecidableEq

/-- Question category: single answer, multiple answer, free answer
(no branching), numeric answer. -/
inductive QuestionCategory where
  | SA | MA | FA | NA
deriving DecidableEq

/-- A choice of an SA/MA question. -/
structure ChoiceOption where
  id : String
  label : String
deriving DecidableEq

/-- Numeric comparison operators for NA conditions. -/
inductive NumericOperator where
  | eq | gt | lt | gte | lte
deriving DecidableEq

/-- The operator's name as it appears in state-node ids (`eq`, `gt`, ...). -/
def opName : NumericOperator → String
  | .eq => "eq" | .gt => "gt" | .lt => "lt" | .gte => "gte" | .lte => "lte"

/-- The operator's display symbol (`=`, `>`, ...). -/
def opSymbol : NumericOperator → String
  | .eq => "=" | .gt => ">" | .lt => "<" | .gte => ">=" | .lte => "<="

/-- A numeric condition (NA). -/
structure NumericCondition where
  operator : NumericOperator
  value : Int
deriving DecidableEq

/-- Match type of a choice condition (MA). -/
inductive MatchType where
  | any | all | exact
deriving DecidableEq

/-- Payload of a choice-based condition. -/
structure ChoiceCond where
  choiceIds : List String
  matchType : Option MatchType := none
deriving DecidableEq

/-- Discriminator of a `SingleCondition`. -/
inductive CondType where
  | choice | numeric
deriving DecidableEq

/-- A single condition of a compound condition, anchored to one question
node. -/
structure SingleCondition where
  nodeId : String
  conditionType : CondType
  choiceCondition : Option ChoiceCond := none
  numericCondition : Option NumericCondition := none
deriving DecidableEq

/-- Combinator of a compound condition (only AND is supported). -/
inductive CombOp where
  | AND
deriving DecidableEq

/-- A compound condition: several single conditions combined with AND. -/
structure CompoundCondition where
  conditions : List SingleCondition
  operator : CombOp := .AND
deriving DecidableEq

/-- Reserved prefix of synthetic state-node ids. -/
def STATE_NODE_PREFIX : String := "_state_"

/-- The 9 edge styles. -/
inductive EdgeStyle where
  | solid | dotted | thick | solidNoArrow | dottedNoArrow | thickNoArrow
  | biDirectional | circleEnd | crossEnd
deriving DecidableEq

/-- Click-binding kind. -/
inductive ClickType where
  | callback | link
deriving DecidableEq

/-- A click binding of a node. -/
structure ClickInfo where
  type : ClickType
  target : String
  tooltip : Option String := none
deriving DecidableEq

/-- A flowchart node. -/
structure FlowchartNode where
  id : String
  label : String
  shape : Option NodeShape := none
  className : Option String := none
  click : Option ClickInfo := none
  questionCategory : Option QuestionCategory := none
  choices : Option (List ChoiceOption) := none
deriving DecidableEq

/-- A branching condition attached to an edge. -/
structure EdgeCondition where
  choiceIds : Option (List String) := none
  numericCondition : Option NumericCondition := none
deriving DecidableEq

/-- A flowchart edge.  The source field `from` is a Lean keyword, so it is
called `fro` here, and `to` (a Mathlib token) is called `to'`. -/
structure FlowchartEdge where
  fro : String
  to' : String
  style : Option EdgeStyle := none
  label : Option String := none
  condition : Option EdgeCondition := none
deriving DecidableEq

/-- A subgraph block. -/
structure FlowchartSubgraph where
  id : String
  title : String
  nodeIds : List String
  direction : Option FlowchartDirection := none
deriving DecidableEq

/-- A `classDef` style definition. -/
structure FlowchartStyle where
  className : String
  styles : List (String × String)
deriving DecidableEq

/-- A `linkStyle` definition. -/
structure FlowchartLinkStyle where
  linkIndex : Nat
  styles : List (String × String)
deriving DecidableEq

/-- Theme of the optional init directive. -/
inductive MermaidTheme where
  | default | forest | dark | neutral | base
deriving DecidableEq

def themeToString : MermaidTheme → String
  | .default => "default" | .forest => "forest" | .dark => "dark"
  | .neutral => "neutral" | .base => "base"

/-- The optional init options of a definition. -/
structure InitConfig where
  theme : Option MermaidTheme := none
  themeVariables : Option (List (String × String)) := none
deriving DecidableEq

/-- A whole flowchart definition. -/
structure FlowchartDefinition where
  direction : FlowchartDirection
  nodes : List FlowchartNode
  edges : List FlowchartEdge
  subgraphs : Option (List FlowchartSubgraph) := none
  styles : Option (List FlowchartStyle) := none
  linkStyles : Option (List FlowchartLinkStyle) := none
  init : Option InitConfig := none
deriving DecidableEq

/-! ## Node-id validation (`src/lib/validation.ts`) -/

/-- Result of a validation. -/
structure ValidationResult where
  valid : Bool
  message : Option String := none
deriving DecidableEq

/-- First-character class of the id pattern: `[a-zA-Z]`. -/
def idStartChar (c : Char) : Bool :=
  ('a' ≤ c && c ≤ 'z') || ('A' ≤ c && c ≤ 'Z')

/-- Continuation-character class of the id pattern: `[a-zA-Z0-9_]`. -/
def idChar (c : Char) : Bool :=
  idStartChar c || ('0' ≤ c && c ≤ '9') || c = '_'

/-- Whether a string matches `^[a-zA-Z][a-zA-Z0-9_]*$`. -/
def matchesIdPattern (s : String) : Bool :=
  match s.data with
  | [] => false
  | c :: rest => idStartChar c && rest.all idChar

/-- `validateNodeId`: ids must start with a letter and contain only
letters, digits and underscores (hyphens are forbidden because they break
the renderer's id-extraction regex). -/
def validateNodeId (id : String) : ValidationResult :=
  if id.data = [] then
    { valid := false, message := some "IDは必須です" }
  else if matchesIdPattern id = false then
    { valid := false
      message := some "IDは英字で始まり、英数字とアンダースコアのみ使用できます" }
  else
    { valid := true }

/-! ## Mermaid serializer (`src/lib/flowchartGenerator.ts`) -/

/-- Whether a node label needs the quoted form: it contains a double
quote or a newline (`text.includes('"') || text.includes('\n')`). -/
def hasSpecialChar (text : String) : Bool :=
  text.data.any (fun c => c = '"' || c = '\n')

/-- `escapeText`: labels containing a quote or a newline are wrapped in
double quotes, with each internal quote replaced by `#quot;`. -/
def escapeText (text : String) : String :=
  if hasSpecialChar text then "\"" ++ replaceChar '"' "#quot;" text ++ "\""
  else text

/-- `escapeEdgeLabel`: edge labels have `>`, `<` and `"` replaced by their
HTML entities, in that order. -/
def escapeEdgeLabel (text : String) : String :=
  replaceChar '"' "&quot;" (replaceChar '<' "&lt;" (replaceChar '>' "&gt;" text))

/-- `wrapNodeText`: wrap an escaped label in the shape's token pair. -/
def wrapNodeText (text : String) (shape : NodeShape) : String :=
  let escapedText := escapeText text
  match shape with
  | .rectangle => "[" ++ escapedText ++ "]"
  | .round => "(" ++ escapedText ++ ")"
  | .stadium => "([" ++ escapedText ++ "])"
  | .subroutine => "[[" ++ escapedText ++ "]]"
  | .database => "[(" ++ escapedText ++ ")]"
  | .circle => "((" ++ escapedText ++ "))"
  | .doubleCircle => "(((" ++ escapedText ++ ")))"
  | .asymmetric => ">" ++ escapedText ++ "]"
  | .rhombus => "\x7b" ++ escapedText ++ "\x7d"
  | .hexagon => "\x7b\x7b" ++ escapedText ++ "\x7d\x7d"
  | .parallelogram => "[/" ++ escapedText ++ "/]"
  | .parallelogramAlt => "[\\" ++ escapedText ++ "\\]"
  | .trapezoid => "[/" ++ escapedText ++ "\\]"
  | .trapezoidAlt => "[\\" ++ escapedText ++ "/]"

/-- `getArrowSyntax`: the arrow token of each edge style. -/
def getArrowSyntax : EdgeStyle → String
  | .solid => "-->"
  | .dotted => "-.->"
  | .thick => "==>"
  | .solidNoArrow => "---"
  | .dottedNoArrow => "-.-"
  | .thickNoArrow => "==="
  | .biDirectional => "<-->"
  | .circleEnd => "--o"
  | .crossEnd => "--x"

/-- `generateNode`: `id`, shape-wrapped label, optional `:::className`
suffix (`if (node.className)` is a truthiness test, so an empty class
name adds nothing). -/
def generateNode (node : FlowchartNode) : String :=
  let shape := node.shape.getD .rectangle
  let nodeText := wrapNodeText node.label shape
  let result := node.id ++ nodeText
  match node.className with
  | some c => if c = "" then result else result ++ ":::" ++ c
  | none => result

/-- `generateEdge`: `from <arrow> [|label|] to`.  The `|label|` segment is
emitted only when `edge.label` is truthy, i.e. present and non-empty. -/
def generateEdge (edge : FlowchartEdge) : String :=
  let arrow := getArrowSyntax (edge.style.getD .solid)
  match edge.label with
  | some l =>
      if l = "" then edge.fro ++ " " ++ arrow ++ " " ++ edge.to'
      else edge.fro ++ " " ++ arrow ++ "|" ++ escapeEdgeLabel l ++ "| " ++ edge.to'
  | none => edge.fro ++ " " ++ arrow ++ " " ++ edge.to'

/-- JSON rendering of a string-to-string record, as `JSON.stringify`
produces for the theme-variables object. -/
def jsonStringRecord (ps : List (String × String)) : String :=
  "\x7b" ++ joinSep "," (ps.map (fun p => "\"" ++ p.1 ++ "\":\"" ++ p.2 ++ "\"")) ++ "\x7d"

/-- `generateInitDirective`: `%%{init: <json>}%%` for the config object
assembled from the present init fields. -/
def generateInitDirective (init : Option InitConfig) : String :=
  match init with
  | none => ""
  | some i =>
      let fields :=
        (match i.theme with
         | some t => ["\"theme\":\"" ++ themeToString t ++ "\""]
         | none => []) ++
        (match i.themeVariables with
         | some vs => ["\"themeVariables\":" ++ jsonStringRecord vs]
         | none => [])
      "%%\x7binit: " ++ ("\x7b" ++ joinSep "," fields ++ "\x7d") ++ "\x7d%%"

/-- `generateSubgraph`: header line, optional direction line, one line per
member id, closing `end` line. -/
def generateSubgraph (subgraph : FlowchartSubgraph) : List String :=
  ["    subgraph " ++ subgraph.id ++ "[" ++ subgraph.title ++ "]"] ++
  (match subgraph.direction with
   | some d => ["        direction " ++ dirToString d]
   | none => []) ++
  subgraph.nodeIds.map (fun nodeId => "        " ++ nodeId) ++
  ["    end"]

/-- `generateStyleDef`: `classDef name key:value,key:value`. -/
def generateStyleDef (style : FlowchartStyle) : String :=
  "classDef " ++ style.className ++ " " ++
    joinSep "," (style.styles.map (fun p => p.1 ++ ":" ++ p.2))

/-- `generateLinkStyle`: `linkStyle index key:value,key:value`. -/
def generateLinkStyle (linkStyle : FlowchartLinkStyle) : String :=
  "linkStyle " ++ toString linkStyle.linkIndex ++ " " ++
    joinSep "," (linkStyle.styles.map (fun p => p.1 ++ ":" ++ p.2))

/-- `generateClickEvent`: `click id call target()` or `click id "target"`,
with an optional trailing quoted tooltip (`tooltip ?` is a truthiness
test, so an empty tooltip adds nothing). -/
def generateClickEvent (node : FlowchartNode) : String :=
  match node.click with
  | none => ""
  | some c =>
      let tooltipStr :=
        match c.tooltip with
        | some t => if t = "" then "" else " \"" ++ t ++ "\""
        | none => ""
      match c.type with
      | .callback => "click " ++ node.id ++ " call " ++ c.target ++ "()" ++ tooltipStr
      | .link => "click " ++ node.id ++ " \"" ++ c.target ++ "\"" ++ tooltipStr

/-- `FlowchartGenerator.generate`: build the line array by successive
pushes, in the source's statement order, then join with newlines. -/
def generate (definition : FlowchartDefinition) : String :=
  let lines : List String := []
  let lines := if definition.init.isSome
    then lines ++ [generateInitDirective definition.init] else lines
  let lines := lines ++ ["flowchart " ++ dirToString definition.direction]
  let lines := definition.nodes.foldl (fun acc node => acc ++ ["    " ++ generateNode node]) lines
  let lines := definition.edges.foldl (fun acc edge => acc ++ ["    " ++ generateEdge edge]) lines
  let lines := match definition.subgraphs with
    | some subgraphs => subgraphs.foldl (fun acc s => acc ++ generateSubgraph s) lines
    | none => lines
  let lines := match definition.styles with
    | some styles => styles.foldl (fun acc s => acc ++ ["    " ++ generateStyleDef s]) lines
    | none => lines
  let lines := match definition.linkStyles with
    | some linkStyles => linkStyles.foldl (fun acc l => acc ++ ["    " ++ generateLinkStyle l]) lines
    | none => lines
  let lines := definition.nodes.foldl (fun acc node =>
    match node.click with
    | some _ => acc ++ ["    " ++ generateClickEvent node]
    | none => acc) lines
  joinSep "\n" lines

/-! ### Spec-side serializer companions

`shapeTokens` and `unwrapNodeText` state §4.4 of the spec — the fixed
bracket/paren token pair of each shape, and the inverse that strips it —
so that the round-trip property can be expressed against `wrapNodeText`. -/

/-- The fixed opening/closing token pair of each shape kind (spec §4.4). -/
def shapeTokens : NodeShape → String × String
  | .rectangle => ("[", "]")
  | .round => ("(", ")")
  | .stadium => ("([", "])")
  | .subroutine => ("[[", "]]")
  | .database => ("[(", ")]")
  | .circle => ("((", "))")
  | .doubleCircle => ("(((", ")))")
  | .asymmetric => (">", "]")
  | .rhombus => ("\x7b", "\x7d")
  | .hexagon => ("\x7b\x7b", "\x7d\x7d")
  | .parallelogram => ("[/", "/]")
  | .parallelogramAlt => ("[\\", "\\]")
  | .trapezoid => ("[/", "\\]")
  | .trapezoidAlt => ("[\\", "/]")

/-- Strip the shape's fixed token pair from a wrapped label (spec §4.4's
`unwrap`). -/
def unwrapNodeText (shape : NodeShape) (s : String) : String :=
  let p := (shapeTokens shape).1
  let q := (shapeTokens shape).2
  let inner := s.data.drop p.data.length
  String.mk (inner.take (inner.length - q.data.length))

/-! ## Custom editor model (`src/app/page.tsx`) -/

/-- A node of the custom editor (shape is always present there). -/
structure CustomNode where
  id : String
  label : String
  shape : NodeShape
  questionCategory : Option QuestionCategory := none
  choices : Option (List ChoiceOption) := none
  compoundCondition : Option CompoundCondition := none
deriving DecidableEq

/-- An edge of the custom editor (label is a plain, possibly empty,
string there). -/
structure CustomEdge where
  fro : String
  to' : String
  label : String
  style : EdgeStyle
deriving DecidableEq

/-- `isStateNode`: ids carrying the reserved `_state_` prefix. -/
def isStateNode (nodeId : String) : Bool :=
  STATE_NODE_PREFIX.data.isPrefixOf nodeId.data

/-- The id token of one condition: `{nodeId}_{choiceIds joined by _}` for
choice conditions, `{nodeId}_{operator}{value}` for numeric ones, and the
bare `nodeId` when the discriminated payload is missing. -/
def condIdToken (c : SingleCondition) : String :=
  match c.conditionType with
  | .choice =>
      match c.choiceCondition with
      | some cc => c.nodeId ++ "_" ++ joinSep "_" cc.choiceIds
      | none => c.nodeId
  | .numeric =>
      match c.numericCondition with
      | some nc => c.nodeId ++ "_" ++ opName nc.operator ++ toString nc.value
      | none => c.nodeId

/-- `generateStateNodeId`: the reserved prefix followed by the condition
tokens joined by `_`, in declaration order. -/
def generateStateNodeId (conditions : List SingleCondition) : String :=
  STATE_NODE_PREFIX ++ joinSep "_" (conditions.map condIdToken)

/-- `choice?.label || choiceId`: resolve a choice id to its display label
through a node, falling back to the id. -/
def choiceLabelOf (node : Option CustomNode) (choiceId : String) : String :=
  match node with
  | some n =>
      match n.choices with
      | some chs =>
          match chs.find? (fun ch => ch.id == choiceId) with
          | some ch => if ch.label = "" then choiceId else ch.label
          | none => choiceId
      | none => choiceId
  | none => choiceId

/-- The display text of one condition inside a state-node label. -/
def condLabelPart (nodes : List CustomNode) (c : SingleCondition) : String :=
  let node := nodes.find? (fun n => n.id == c.nodeId)
  let nodeName :=
    match node with
    | some n => if n.label = "" then c.nodeId else n.label
    | none => c.nodeId
  match c.conditionType with
  | .choice =>
      match c.choiceCondition with
      | some cc => nodeName ++ ": " ++ joinSep ", " (cc.choiceIds.map (choiceLabelOf node))
      | none => nodeName
  | .numeric =>
      match c.numericCondition with
      | some nc => nodeName ++ " " ++ opSymbol nc.operator ++ " " ++ toString nc.value
      | none => nodeName

/-- `generateStateNodeLabel`: per-condition display strings joined with
`" AND "`. -/
def generateStateNodeLabel (conditions : List SingleCondition)
    (nodes : List CustomNode) : String :=
  joinSep " AND " (conditions.map (condLabelPart nodes))

/-- Whether a node is a SA/MA/NA question node (category present and not
FA). -/
def isQuestionNonFA (n : CustomNode) : Bool :=
  match n.questionCategory with
  | some c => decide (c ≠ QuestionCategory.FA)
  | none => false

/-- `conditionNodes`: the nodes offered as compound-condition inputs —
every non-state node whose category is SA, MA or NA, wherever it sits in
the graph. -/
def conditionNodes (customNodes : List CustomNode) : List CustomNode :=
  customNodes.filter (fun node => isQuestionNonFA node && !(isStateNode node.id))

/-- Lift a custom node into the serializer's node type (it has no class
name and no click binding). -/
def toFlowchartNode (n : CustomNode) : FlowchartNode :=
  { id := n.id, label := n.label, shape := some n.shape
    questionCategory := n.questionCategory, choices := n.choices }

/-- The edge mapping of `currentDefinition`: `label: e.label || undefined`
turns the empty string into an absent label. -/
def edgeOfCustom (e : CustomEdge) : FlowchartEdge :=
  { fro := e.fro, to' := e.to'
    label := if e.label = "" then none else some e.label
    style := some e.style }

/-- `currentDefinition`: the serializer input assembled from the editor
state (direction is fixed to `TD`). -/
def currentDefinition (customNodes : List CustomNode)
    (customEdges : List CustomEdge) : FlowchartDefinition :=
  { direction := .TD
    nodes := customNodes.map toFlowchartNode
    edges := customEdges.map edgeOfCustom }

/-- Info of a node to be created by the dialog. -/
structure NewNodeInfo where
  id : String
  label : String
deriving DecidableEq

/-- The payload a dialog commit hands to `handleAddCondition`. -/
structure AddConditionResult where
  targetNodeId : String
  label : String
  style : EdgeStyle
  createNewNode : Option NewNodeInfo := none
  condition : Option EdgeCondition := none
  compoundCondition : Option CompoundCondition := none
deriving DecidableEq

/-- The label put on an edge from a condition node to the state node:
the selected choices' labels joined by `", "`, or `"{symbol} {value}"`
for a numeric condition, or empty. -/
def condEdgeLabel (customNodes : List CustomNode) (cond : SingleCondition) : String :=
  match cond.conditionType with
  | .choice =>
      match cond.choiceCondition with
      | some cc =>
          let node := customNodes.find? (fun n => n.id == cond.nodeId)
          joinSep ", " (cc.choiceIds.map (choiceLabelOf node))
      | none => ""
  | .numeric =>
      match cond.numericCondition with
      | some nc => opSymbol nc.operator ++ " " ++ toString nc.value
      | none => ""

/-- `handleAddCondition`: commit a dialog result against the current
graph, returning the new `(nodes, edges)` state.

With a non-empty compound condition it derives the state-node id and
label, creates the state node unless one with that id already exists,
adds — for every condition in the compound — an edge from that
condition's node to the state node (unless such an edge already exists),
and finally adds the edge from the state node to the target.  Otherwise
it adds a single edge from the selected source node to the target. -/
def handleAddCondition (selectedSourceNode : Option CustomNode)
    (result : AddConditionResult) (customNodes : List CustomNode)
    (customEdges : List CustomEdge) : List CustomNode × List CustomEdge :=
  match selectedSourceNode with
  | none => (customNodes, customEdges)
  | some sel =>
      let nodes1 :=
        match result.createNewNode with
        | some nn => customNodes ++
            [{ id := nn.id, label := nn.label, shape := .rectangle }]
        | none => customNodes
      match result.compoundCondition with
      | some cc =>
          if cc.conditions.length > 0 then
            let stateNodeId := generateStateNodeId cc.conditions
            let stateNodeLabel := generateStateNodeLabel cc.conditions customNodes
            let nodes2 :=
              match customNodes.find? (fun n => n.id == stateNodeId) with
              | some _ => nodes1
              | none => nodes1 ++
                  [{ id := stateNodeId, label := stateNodeLabel, shape := .hexagon
                     compoundCondition := some cc }]
            let newEdges := cc.conditions.foldl (fun acc cond =>
              if customEdges.any (fun e => e.fro == cond.nodeId && e.to' == stateNodeId)
              then acc
              else acc ++ [{ fro := cond.nodeId, to' := stateNodeId
                             label := condEdgeLabel customNodes cond
                             style := .dotted }]) []
            let newEdges := newEdges ++
              [{ fro := stateNodeId, to' := result.targetNodeId
                 label := result.label, style := result.style }]
            (nodes2, customEdges ++ newEdges)
          else
            (nodes1, customEdges ++
              [{ fro := sel.id, to' := result.targetNodeId
                 label := result.label, style := result.style }])
      | none =>
          (nodes1, customEdges ++
            [{ fro := sel.id, to' := result.targetNodeId
               label := result.label, style := result.style }])

/-- `removeNode`: delete the node at `index` and every edge whose
endpoint is that node's id (out-of-range indices leave the state
unchanged). -/
def removeNode (index : Nat) (customNodes : List CustomNode)
    (customEdges : List CustomEdge) : List CustomNode × List CustomEdge :=
  match customNodes[index]? with
  | none => (customNodes, customEdges)
  | some n =>
      (customNodes.eraseIdx index,
       customEdges.filter (fun e => e.fro ≠ n.id ∧ e.to' ≠ n.id))

/-! ## Connection dialog (`src/components/NodeEditDialog.tsx`) -/

/-- Whether the target of a new connection is an existing node or a node
to be created. -/
inductive TargetType where
  | existing | new
deriving DecidableEq

/-- The dialog's form state at submit time.  `compoundConditions` models
the `Map<string, SingleCondition>` as an association list in insertion
order; `numericValue` models the numeric input field, with `none` for the
empty field and `some v` for a field whose parsed value is `v`. -/
structure ConnectionFormState where
  useCompoundCondition : Bool
  compoundConditions : List (String × SingleCondition)
  targetType : TargetType
  selectedTargetId : String
  newNodeId : String
  newNodeLabel : String
  conditionLabel : String
  edgeStyle : EdgeStyle
  nodeQuestionCategory : Option QuestionCategory
  nodeChoices : List ChoiceOption
  selectedChoiceIds : List String
  numericOperator : NumericOperator
  numericValue : Option Int
deriving DecidableEq

/-- `Map.prototype.set`: overwrite an existing key in place, else append. -/
def condMapSet (m : List (String × SingleCondition)) (k : String)
    (v : SingleCondition) : List (String × SingleCondition) :=
  if m.any (fun p => p.1 == k) then
    m.map (fun p => if p.1 == k then (k, v) else p)
  else m ++ [(k, v)]

/-- `Map.prototype.delete`: drop the entry with the given key. -/
def condMapDelete (m : List (String × SingleCondition)) (k : String) :
    List (String × SingleCondition) :=
  m.filter (fun p => p.1 ≠ k)

/-- `updateCompoundCondition`: set or clear one node's condition.  Every
call site passes a condition whose `nodeId` equals the key. -/
def updateCompoundCondition (m : List (String × SingleCondition))
    (nodeId : String) (condition : Option SingleCondition) :
    List (String × SingleCondition) :=
  match condition with
  | some c => condMapSet m nodeId c
  | none => condMapDelete m nodeId

/-- The map invariant maintained by `updateCompoundCondition`: keys are
distinct, and each stored condition is anchored to its key. -/
def condMapWF (m : List (String × SingleCondition)) : Prop :=
  (m.map (fun p => p.1)).Nodup ∧ ∀ p ∈ m, p.2.nodeId = p.1

/-- `currentHasChoices` of the dialog: SA or MA with a non-empty choice
list. -/
def currentHasChoices (st : ConnectionFormState) : Bool :=
  (st.nodeQuestionCategory == some .SA || st.nodeQuestionCategory == some .MA)
    && decide (0 < st.nodeChoices.length)

/-- `generateConditionLabel` of the dialog: the selected choices' labels,
or the numeric condition text, or the free-form label. -/
def generateConditionLabelDialog (st : ConnectionFormState) : String :=
  if currentHasChoices st && decide (st.selectedChoiceIds ≠ []) then
    joinSep ", "
      ((st.nodeChoices.filter (fun c => st.selectedChoiceIds.contains c.id)).map
        (fun c => c.label))
  else if st.nodeQuestionCategory == some .NA && st.numericValue.isSome then
    opSymbol st.numericOperator ++ " " ++ toString (st.numericValue.getD 0)
  else st.conditionLabel

/-- `handleAddConnection`: the dialog's submit handler.  When compound
mode is on and the condition map holds at least two entries it commits
the map's values as a compound condition; otherwise it commits a single
connection (with an optional per-edge condition), and `none` models the
submissions that produce no commit. -/
def handleAddConnection (st : ConnectionFormState) : Option AddConditionResult :=
  if st.useCompoundCondition = true ∧ 2 ≤ st.compoundConditions.length then
    let conditions := st.compoundConditions.map (fun p => p.2)
    let targetNodeId :=
      match st.targetType with
      | .existing => st.selectedTargetId
      | .new => st.newNodeId
    let base : AddConditionResult :=
      { targetNodeId := targetNodeId, label := st.conditionLabel
        style := st.edgeStyle
        compoundCondition := some { conditions := conditions } }
    if st.targetType = .new ∧ st.newNodeId ≠ "" ∧ st.newNodeLabel ≠ "" then
      some { base with createNewNode := some { id := st.newNodeId, label := st.newNodeLabel } }
    else
      some base
  else
    let condition : Option EdgeCondition :=
      if currentHasChoices st = true ∧ st.selectedChoiceIds ≠ [] then
        some { choiceIds := some st.selectedChoiceIds }
      else if st.nodeQuestionCategory = some .NA ∧ st.numericValue.isSome then
        some { numericCondition :=
                 some { operator := st.numericOperator
                        value := st.numericValue.getD 0 } }
      else none
    let finalLabel := generateConditionLabelDialog st
    if st.targetType = .existing ∧ st.selectedTargetId ≠ "" then
      some { targetNodeId := st.selectedTargetId, label := finalLabel
             style := st.edgeStyle, condition := condition }
    else if st.targetType = .new ∧ st.newNodeId ≠ "" ∧ st.newNodeLabel ≠ "" then
      some { targetNodeId := st.newNodeId, label := finalLabel
             style := st.edgeStyle
             createNewNode := some { id := st.newNodeId, label := st.newNodeLabel }
             condition := condition }
    else none

/-! ## Spec-side graph analysis

Modelled from the spec: the reachability analyzer of §4.1
(`reachableQuestionNodes`, whose implementation `getReachableQuestionNodes`
lives in `src/lib/graphUtils.ts`, a file that is not among the sources),
and the order-insensitive state-node identity of §4.3 (sort the
conditions by `nodeId` before joining). -/

/-- The reverse-adjacency step: all `from` endpoints of edges into `id`. -/
def predecessorIds (edges : List CustomEdge) (id : String) : List String :=
  (edges.filter (fun e => e.to' == id)).map (fun e => e.fro)

/-- Modelled from the spec: the backward traversal of §4.1, as a
fuel-bounded depth-first walk with a visited list, so that cycles
terminate and no node is expanded twice. -/
def reachVisit (edges : List CustomEdge) :
    Nat → List String → List String → List String
  | 0, visited, _ => visited
  | _ + 1, visited, [] => visited
  | fuel + 1, visited, x :: stack =>
      if visited.contains x then reachVisit edges fuel visited stack
      else reachVisit edges fuel (visited ++ [x]) (predecessorIds edges x ++ stack)

/-- Modelled from the spec: `reachableQuestionNodes(targetId, nodes,
edges)` of §4.1 — the non-state SA/MA/NA nodes on some path into the
target, expanding state nodes to the question nodes their compound
conditions reference instead of collecting the state nodes themselves. -/
def reachableQuestionNodes (targetId : String) (nodes : List CustomNode)
    (edges : List CustomEdge) : List CustomNode :=
  let fuel := (edges.length + 1) * (edges.length + 1) + 1
  let visited := reachVisit edges fuel [] [targetId]
  let collectedIds := visited.foldl (fun acc vid =>
    match nodes.find? (fun n => n.id == vid) with
    | none => acc
    | some node =>
        if isStateNode node.id then
          match node.compoundCondition with
          | some cc => acc ++ cc.conditions.foldl (fun acc2 cond =>
              match nodes.find? (fun n => n.id == cond.nodeId) with
              | some orig =>
                  if !(isStateNode orig.id) && isQuestionNonFA orig
                  then acc2 ++ [orig.id] else acc2
              | none => acc2) []
          | none => acc
        else if isQuestionNonFA node then acc ++ [node.id]
        else acc) []
  (collectedIds.eraseDups).filterMap (fun i => nodes.find? (fun n => n.id == i))

/-- Byte-wise lexicographic comparison of character lists. -/
def lexLe : List Char → List Char → Bool
  | [], _ => true
  | _ :: _, [] => false
  | a :: as, b :: bs =>
      if a.val < b.val then true
      else if b.val < a.val then false
      else lexLe as bs

/-- Lexicographic order on strings, used to sort condition lists by
`nodeId`. -/
def strLeB (a b : String) : Bool := lexLe a.data b.data

/-- Insert a condition into a list sorted by `nodeId`. -/
def insertSorted (c : SingleCondition) :
    List SingleCondition → List SingleCondition
  | [] => [c]
  | d :: ds =>
      if strLeB c.nodeId d.nodeId then c :: d :: ds
      else d :: insertSorted c ds

/-- Insertion sort of a condition list by `nodeId`. -/
def sortByNodeId : List SingleCondition → List SingleCondition
  | [] => []
  | c :: cs => insertSorted c (sortByNodeId cs)

/-- Modelled from the spec: the order-insensitive state-node identity of
§4.3 — sort the conditions by `nodeId`, then derive the id exactly as the
source does. -/
def stateNodeIdSpec (conditions : List SingleCondition) : String :=
  generateStateNodeId (sortByNodeId conditions)

/-! ## Concrete scenarios used by the theorems below -/

/-- Condition "Q1 answered with choice a". -/
def exCondA : SingleCondition :=
  { nodeId := "Q1", conditionType := .choice
    choiceCondition := some { choiceIds := ["a"] } }

/-- Condition "Q2 answered with choice c". -/
def exCondB : SingleCondition :=
  { nodeId := "Q2", conditionType := .choice
    choiceCondition := some { choiceIds := ["c"] } }

/-- Question node Q1 with choices a/b. -/
def exQ1 : CustomNode :=
  { id := "Q1", label := "Question 1", shape := .rectangle
    questionCategory := some .SA
    choices := some [{ id := "a", label := "Yes" }, { id := "b", label := "No" }] }

/-- Question node Q2 with choices c/d. -/
def exQ2 : CustomNode :=
  { id := "Q2", label := "Question 2", shape := .rectangle
    questionCategory := some .MA
    choices := some [{ id := "c", label := "High" }, { id := "d", label := "Low" }] }

/-- A plain end node. -/
def exEnd : CustomNode := { id := "End", label := "End", shape := .stadium }

/-- Editor nodes for the commit scenarios. -/
def exNodes : List CustomNode := [exQ1, exQ2, exEnd]

/-- Editor edges for the commit scenarios. -/
def exEdges : List CustomEdge :=
  [{ fro := "Q1", to' := "Q2", label := "Yes", style := .solid }]

/-- The compound condition `Q1 = a AND Q2 = c`. -/
def exCC : CompoundCondition := { conditions := [exCondA, exCondB] }

/-- A dialog result committing `exCC` from Q2 towards End. -/
def exCompoundResult : AddConditionResult :=
  { targetNodeId := "End", label := "both", style := .solid
    compoundCondition := some exCC }

/-- The state after committing `exCompoundResult` from Q2. -/
def exCommit : List CustomNode × List CustomEdge :=
  handleAddCondition (some exQ2) exCompoundResult exNodes exEdges

/-- A dialog result whose compound condition holds a single condition. -/
def exSingleCompoundResult : AddConditionResult :=
  { targetNodeId := "End", label := "one", style := .solid
    compoundCondition := some { conditions := [exCondA] } }

/-- The state after committing the one-condition compound from Q2. -/
def exCommitSingle : List CustomNode × List CustomEdge :=
  handleAddCondition (some exQ2) exSingleCompoundResult exNodes exEdges

/-- The state node representing `exCC`. -/
def exStateNode : CustomNode :=
  { id := "_state_Q1_a_Q2_c"
    label := generateStateNodeLabel exCC.conditions exNodes
    shape := .hexagon, compoundCondition := some exCC }

/-- Nodes for the deletion scenario: Q1, Q2, the state node over both,
and End. -/
def exDelNodes : List CustomNode := [exQ1, exQ2, exStateNode, exEnd]

/-- Edges for the deletion scenario. -/
def exDelEdges : List CustomEdge :=
  [{ fro := "Q1", to' := "Q2", label := "Yes", style := .solid },
   { fro := "Q2", to' := "_state_Q1_a_Q2_c", label := "High", style := .dotted },
   { fro := "_state_Q1_a_Q2_c", to' := "End", label := "both", style := .solid }]

/-- The state after deleting Q1 (index 0). -/
def exRemoved : List CustomNode × List CustomEdge :=
  removeNode 0 exDelNodes exDelEdges

/-- A second end node for the reachability scenario. -/
def exEnd2 : CustomNode := { id := "End2", label := "End 2", shape := .stadium }

/-- Two independent flows: Q1 → End and Q2 → End2. -/
def exFlowNodes : List CustomNode := [exQ1, exEnd, exQ2, exEnd2]

/-- Edges of the two independent flows. -/
def exFlowEdges : List CustomEdge :=
  [{ fro := "Q1", to' := "End", label := "Yes", style := .solid },
   { fro := "Q2", to' := "End2", label := "High", style := .solid }]

/-- A dialog form state committing `exCondA AND exCondB` towards End. -/
def exFormState : ConnectionFormState :=
  { useCompoundCondition := true
    compoundConditions := [("Q1", exCondA), ("Q2", exCondB)]
    targetType := .existing, selectedTargetId := "End"
    newNodeId := "", newNodeLabel := "", conditionLabel := ""
    edgeStyle := .solid
    nodeQuestionCategory := some .MA
    nodeChoices := [{ id := "c", label := "High" }, { id := "d", label := "Low" }]
    selectedChoiceIds := [], numericOperator := .eq, numericValue := none }

/-- The result `handleAddConnection` produces for `exFormState`. -/
def exDialogResult : AddConditionResult :=
  { targetNodeId := "End", label := "", style := .solid
    compoundCondition := some { conditions := [exCondA, exCondB] } }

/-- A definition with an edge whose `to` endpoint resolves to no node. -/
def exDanglingEdge : FlowchartEdge :=
  { fro := "A", to' := "Ghost", style := some .solid }

/-- The definition holding only node A and the dangling edge. -/
def exDanglingDef : FlowchartDefinition :=
  { direction := .TD
    nodes := [{ id := "A", label := "Start", shape := some .stadium }]
    edges := [exDanglingEdge] }


/-! ## Helper lemmas -/

theorem str_data_append (s t : String) : (s ++ t).data = s.data ++ t.data := by
  cases s
  cases t
  rfl

theorem str_mk_data (s : String) : String.mk s.data = s := by
  cases s
  rfl

theorem strip_middle {α : Type} (p m q : List α) :
    ((p ++ (m ++ q)).drop p.length).take
      (((p ++ (m ++ q)).drop p.length).length - q.length) = m := by
  rw [List.drop_left, List.length_append, Nat.add_sub_cancel, List.take_left]

theorem data_infix_joinSep {l : String} : ∀ {xs : List String}, l ∈ xs →
    l.data <:+: (joinSep "\n" xs).data := by
  intro xs
  induction xs with
  | nil => intro h; cases h
  | cons x xs ih =>
    intro h
    cases xs with
    | nil =>
      have hx : l = x := by
        cases h with
        | head => rfl
        | tail _ h' => cases h'
      subst hx
      exact List.infix_refl _
    | cons y ys =>
      show l.data <:+: (x ++ "\n" ++ joinSep "\n" (y :: ys)).data
      rw [str_data_append, str_data_append]
      cases h with
      | head =>
        exact ((List.prefix_append l.data _).trans (List.prefix_append _ _)).isInfix
      | tail _ h' =>
        exact (ih h').trans (List.suffix_append _ _).isInfix

theorem foldl_push_map {α β : Type} (f : α → β) :
    ∀ (l : List α) (acc : List β),
      l.foldl (fun a x => a ++ [f x]) acc = acc ++ l.map f := by
  intro l
  induction l with
  | nil => intro acc; simp
  | cons x xs ih => intro acc; simp [List.foldl, ih]

theorem foldl_push_flatten {α β : Type} (g : α → List β) :
    ∀ (l : List α) (acc : List β),
      l.foldl (fun a x => a ++ g x) acc = acc ++ (l.map g).flatten := by
  intro l
  induction l with
  | nil => intro acc; simp
  | cons x xs ih => intro acc; simp [List.foldl, ih]

theorem foldl_click (f : FlowchartNode → String) :
    ∀ (l : List FlowchartNode) (acc : List String),
      l.foldl (fun a n => match n.click with | some _ => a ++ [f n] | none => a) acc
        = acc ++ (l.filter (fun n => n.click.isSome)).map f := by
  intro l
  induction l with
  | nil => intro acc; simp
  | cons n ns ih =>
    intro acc
    cases hc : n.click <;> simp [List.foldl, ih, hc, List.filter_cons]

theorem generate_eq_sections (d : FlowchartDefinition) :
    generate d = joinSep "\n"
      ((if d.init.isSome then [generateInitDirective d.init] else []) ++
       ["flowchart " ++ dirToString d.direction] ++
       d.nodes.map (fun n => "    " ++ generateNode n) ++
       d.edges.map (fun e => "    " ++ generateEdge e) ++
       (match d.subgraphs with
        | some sgs => (sgs.map generateSubgraph).flatten
        | none => []) ++
       (match d.styles with
        | some ss => ss.map (fun s => "    " ++ generateStyleDef s)
        | none => []) ++
       (match d.linkStyles with
        | some ls => ls.map (fun l => "    " ++ generateLinkStyle l)
        | none => []) ++
       (d.nodes.filter (fun n => n.click.isSome)).map
         (fun n => "    " ++ generateClickEvent n)) := by
  unfold generate
  rcases hin : d.init with _ | i <;>
    rcases hsg : d.subgraphs with _ | sgs <;>
    rcases hst : d.styles with _ | ss <;>
    rcases hls : d.linkStyles with _ | ls <;>
    simp [hin, hsg, hst, hls, foldl_push_map, foldl_push_flatten, foldl_click,
      List.append_assoc]

theorem fro_prefix_generateEdge (e : FlowchartEdge) :
    e.fro.data <+: (generateEdge e).data := by
  unfold generateEdge
  rcases e.label with _ | l
  · simp only [str_data_append]
    exact (List.prefix_append _ _).trans
      ((List.prefix_append _ _).trans ((List.prefix_append _ _).trans (List.prefix_append _ _)))
  · by_cases hl : l = "" <;>
      simp only [hl, if_true, if_false, reduceIte, str_data_append]
    · exact (List.prefix_append _ _).trans
        ((List.prefix_append _ _).trans ((List.prefix_append _ _).trans (List.prefix_append _ _)))
    · exact (List.prefix_append _ _).trans
        ((List.prefix_append _ _).trans ((List.prefix_append _ _).trans
          ((List.prefix_append _ _).trans ((List.prefix_append _ _).trans (List.prefix_append _ _)))))

theorem to_suffix_generateEdge (e : FlowchartEdge) :
    e.to'.data <:+ (generateEdge e).data := by
  unfold generateEdge
  rcases e.label with _ | l
  · simp only [str_data_append]
    exact List.suffix_append _ _
  · by_cases hl : l = "" <;>
      simp only [hl, if_true, if_false, reduceIte, str_data_append]
    · exact List.suffix_append _ _
    · exact List.suffix_append _ _

theorem wrapNodeText_eq_tokens (text : String) (shape : NodeShape) :
    wrapNodeText text shape =
      (shapeTokens shape).1 ++ escapeText text ++ (shapeTokens shape).2 := by
  cases shape <;> rfl

theorem escapeText_of_plain {text : String} (h : hasSpecialChar text = false) :
    escapeText text = text := by
  unfold escapeText
  simp [h]

theorem unwrap_wrap_middle (shape : NodeShape) (m : String) :
    unwrapNodeText shape ((shapeTokens shape).1 ++ m ++ (shapeTokens shape).2) = m := by
  show String.mk _ = m
  rw [str_data_append, str_data_append, List.append_assoc, strip_middle, str_mk_data]

theorem sortByNodeId_eq_of_sorted :
    ∀ cs : List SingleCondition,
      List.Pairwise (fun a b => strLeB a.nodeId b.nodeId = true) cs →
      sortByNodeId cs = cs := by
  intro cs
  induction cs with
  | nil => intro _; rfl
  | cons c cs ih =>
    intro h
    have h' := List.pairwise_cons.mp h
    rw [sortByNodeId, ih h'.2]
    cases cs with
    | nil => rfl
    | cons d ds => simp [insertSorted, h'.1 d (by simp)]

theorem generateStateNodeId_data (cs : List SingleCondition) :
    (generateStateNodeId cs).data =
      '_' :: 's' :: 't' :: 'a' :: 't' :: 'e' :: '_' ::
        (joinSep "_" (cs.map condIdToken)).data := by
  show ( STATE_NODE_PREFIX ++ joinSep "_" (cs.map condIdToken)).data = _
  rw [str_data_append]
  rfl

/-! ## Claim theorems -/

/-- C1 counterexample: the two orders of the set-equal pair
`{Q1 ↦ choice a, Q2 ↦ choice c}` are permutations of each other, yet
`generateStateNodeId` derives different ids for them, so state-node
identity is not insensitive to condition order. -/
theorem stateNodeId_order_counterexample :
    List.Perm [exCondA, exCondB] [exCondB, exCondA] ∧
    generateStateNodeId [exCondA, exCondB] ≠ generateStateNodeId [exCondB, exCondA] :=
  ⟨List.Perm.swap exCondB exCondA [], by decide⟩

/-- C1 (amended): `generateStateNodeId` joins the condition tokens in
declaration order, so permuting a compound condition can change the id;
whenever the condition list is already sorted by `nodeId`, it agrees
with the order-insensitive identity `stateNodeIdSpec` (sort by `nodeId`,
then join). -/
theorem stateNodeId_agrees_with_sorted_spec (cs : List SingleCondition)
    (h : List.Pairwise (fun a b => strLeB a.nodeId b.nodeId = true) cs) :
    generateStateNodeId cs = stateNodeIdSpec cs := by
  rw [stateNodeIdSpec, sortByNodeId_eq_of_sorted cs h]

/-- C1 witness: the sorted pair `[exCondA, exCondB]` satisfies the
hypothesis and the two identities coincide on it. -/
theorem stateNodeId_agrees_with_sorted_spec_witness :
    List.Pairwise (fun a b => strLeB a.nodeId b.nodeId = true) [exCondA, exCondB] ∧
    generateStateNodeId [exCondA, exCondB] = stateNodeIdSpec [exCondA, exCondB] :=
  ⟨by decide, stateNodeId_agrees_with_sorted_spec [exCondA, exCondB] (by decide)⟩

/-- C2: committing the compound condition `Q1 = a AND Q2 = c` from the
selected node Q2 adds an edge from Q1 into the state node as well — two
edges enter the state node, not exactly the one from Q2 that the
edge-wiring contract demands. -/
theorem handleAddCondition_edges_from_all_condition_nodes :
    (exCommit.2.any (fun e => e.fro == "Q1" && e.to' == "_state_Q1_a_Q2_c")) = true ∧
    (exCommit.2.filter (fun e => e.to' == "_state_Q1_a_Q2_c")).length = 2 ∧
    (exEdges.any (fun e => e.to' == "_state_Q1_a_Q2_c")) = false ∧
    "Q1" ≠ "Q2" := by decide

/-- C3: deleting Q1 (index 0) with `removeNode` leaves the state node
whose compound condition references Q1 in the node list, and leaves the
edges touching that state node in the edge list — the cascade the spec
requires does not happen. -/
theorem removeNode_leaves_referencing_state_node :
    (exDelNodes.map (fun n => n.id))[0]? = some "Q1" ∧
    (exCC.conditions.any (fun c => c.nodeId == "Q1")) = true ∧
    (exRemoved.1.any (fun n => n.id == "_state_Q1_a_Q2_c")) = true ∧
    (exRemoved.2.any (fun e =>
      e.fro == "_state_Q1_a_Q2_c" || e.to' == "_state_Q1_a_Q2_c")) = true := by decide

/-- C4: on the two independent flows `Q1 → End` and `Q2 → End2`, the
nodes offered as compound-condition inputs for target End are all
question nodes of the graph, while reverse reachability from End yields
only Q1 — the offered set is not the reachability set. -/
theorem conditionNodes_ignores_reachability :
    ((conditionNodes exFlowNodes).map (fun n => n.id)) = ["Q1", "Q2"] ∧
    ((reachableQuestionNodes "End" exFlowNodes exFlowEdges).map (fun n => n.id)) = ["Q1"] ∧
    (["Q1", "Q2"] : List String) ≠ ["Q1"] := by decide

/-- C5 counterexample: a committed result whose compound condition holds
a single condition does create a state node (and a state-node edge) —
`handleAddCondition` accepts any non-empty compound condition. -/
theorem handleAddCondition_creates_state_node_for_single_condition :
    (exSingleCompoundResult.compoundCondition.map
      (fun cc => cc.conditions.length)) = some 1 ∧
    (exNodes.all (fun n => !(isStateNode n.id))) = true ∧
    (exCommitSingle.1.any (fun n => isStateNode n.id)) = true ∧
    (exCommitSingle.2.any (fun e => isStateNode e.to')) = true := by decide

/-- C5 (amended): the refusal of degenerate compound conditions lives in
the dialog, not in the state-node creator — `handleAddConnection` commits
a compound condition only when the condition map holds at least two
entries, and the map invariant makes those conditions pairwise anchored
to distinct node ids. -/
theorem handleAddConnection_compound_guard (st : ConnectionFormState)
    (r : AddConditionResult) (cc : CompoundCondition)
    (hwf : condMapWF st.compoundConditions)
    (hr : handleAddConnection st = some r)
    (hcc : r.compoundCondition = some cc) :
    2 ≤ cc.conditions.length ∧ (cc.conditions.map (fun c => c.nodeId)).Nodup := by
  unfold handleAddConnection at hr
  by_cases hguard : st.useCompoundCondition = true ∧ 2 ≤ st.compoundConditions.length
  · rw [if_pos hguard] at hr
    have hcomp : r.compoundCondition =
        some { conditions := st.compoundConditions.map (fun p => p.2) } := by
      simp only [] at hr
      repeat' split at hr
      all_goals
        injection hr with h
      all_goals
        subst h
      all_goals
        rfl
    rw [hcomp] at hcc
    injection hcc with h
    subst h
    refine ⟨by simpa using hguard.2, ?_⟩
    show ((st.compoundConditions.map (fun p => p.2)).map (fun c => c.nodeId)).Nodup
    rw [List.map_map]
    have hmap : st.compoundConditions.map ((fun c => c.nodeId) ∘ (fun p => p.2))
        = st.compoundConditions.map (fun p => p.1) :=
      List.map_congr_left (fun p hp => hwf.2 p hp)
    rw [hmap]
    exact hwf.1
  · rw [if_neg hguard] at hr
    exfalso
    simp only [] at hr
    repeat' split at hr
    all_goals
      first
        | exact Option.noConfusion hr
        | (injection hr with h; subst h; simp at hcc)

/-- C5 witness: the concrete form state `exFormState` satisfies the map
invariant, commits `exDialogResult`, and the guard conclusion holds. -/
theorem handleAddConnection_compound_guard_witness :
    condMapWF [("Q1", exCondA), ("Q2", exCondB)] ∧
    (2 ≤ ([exCondA, exCondB] : List SingleCondition).length ∧
      (([exCondA, exCondB] : List SingleCondition).map (fun c => c.nodeId)).Nodup) :=
  ⟨⟨by decide, by decide⟩,
   handleAddConnection_compound_guard exFormState exDialogResult
     { conditions := [exCondA, exCondB] } ⟨by decide, by decide⟩ (by decide) rfl⟩

/-- C6 counterexample: the id derived for `Q1 = a AND Q2 = c` starts with
the reserved `_state_` prefix and is rejected by `validateNodeId`, so
state-node ids do not match `^[A-Za-z][A-Za-z0-9_]*$`. -/
theorem stateNodeId_fails_validateNodeId_example :
    (validateNodeId (generateStateNodeId [exCondA, exCondB])).valid = false := by decide

/-- C6 (amended): every id produced by `generateStateNodeId` begins with
the underscore of the reserved `_state_` prefix, so `validateNodeId`
rejects it — the identifier grammar governs user ids, and the reserved
prefix keeps the synthetic namespace disjoint from valid user ids. -/
theorem validateNodeId_rejects_state_node_ids (cs : List SingleCondition) :
    (validateNodeId (generateStateNodeId cs)).valid = false := by
  have h := generateStateNodeId_data cs
  have hne : (generateStateNodeId cs).data ≠ [] := by
    rw [h]
    simp
  have hstart : idStartChar '_' = false := by decide
  have hm : matchesIdPattern (generateStateNodeId cs) = false := by
    unfold matchesIdPattern
    rw [h]
    simp [hstart]
  simp [validateNodeId, hne, hm]

/-- C7: serialization is total over any `(nodes, edges)` pair — for every
definition and edge whose `from` or `to` id `uid` resolves to no node,
`generate` still produces its output by pure concatenation, the edge's
line appears in that output, and the unresolved id appears literally in
the line. -/
theorem generate_total_on_dangling_edges (d : FlowchartDefinition)
    (e : FlowchartEdge) (uid : String) (he : e ∈ d.edges)
    (hu : uid = e.fro ∨ uid = e.to')
    (hmiss : ∀ n ∈ d.nodes, n.id ≠ uid) :
    uid.data <:+: ("    " ++ generateEdge e).data ∧
    ("    " ++ generateEdge e).data <:+: (generate d).data := by
  constructor
  · rw [str_data_append]
    rcases hu with h | h
    · subst h
      exact (fro_prefix_generateEdge e).isInfix.trans (List.suffix_append _ _).isInfix
    · subst h
      exact ((to_suffix_generateEdge e).trans (List.suffix_append _ _)).isInfix
  · rw [generate_eq_sections]
    apply data_infix_joinSep
    have hmem : ("    " ++ generateEdge e) ∈ d.edges.map (fun e => "    " ++ generateEdge e) :=
      List.mem_map_of_mem _ he
    exact List.mem_append_left _ (List.mem_append_left _ (List.mem_append_left _
      (List.mem_append_left _ (List.mem_append_right _ hmem))))

/-- C7 witness: the dangling edge `A --> Ghost` of `exDanglingDef`, whose
target id `Ghost` matches no node, still appears literally in the
serializer output. -/
theorem generate_total_on_dangling_edges_witness :
    (exDanglingEdge ∈ exDanglingDef.edges ∧
      (∀ n ∈ exDanglingDef.nodes, n.id ≠ "Ghost")) ∧
    ("Ghost".data <:+: ("    " ++ generateEdge exDanglingEdge).data ∧
      ("    " ++ generateEdge exDanglingEdge).data <:+: (generate exDanglingDef).data) :=
  ⟨⟨by decide, by decide⟩,
   generate_total_on_dangling_edges exDanglingDef exDanglingEdge "Ghost"
     (by decide) (Or.inr (by decide)) (by decide)⟩

/-- C8: shape wrapping round-trips — for every shape, stripping the
shape's fixed token pair from `wrapNodeText label shape` recovers the
label whenever it has no quote and no newline, and a label containing a
quote or newline is emitted wrapped in double quotes with each internal
quote replaced by `#quot;`. -/
theorem wrapNodeText_roundTrip (label : String) (shape : NodeShape) :
    (hasSpecialChar label = false →
      unwrapNodeText shape (wrapNodeText label shape) = label) ∧
    (hasSpecialChar label = true →
      wrapNodeText label shape =
        (shapeTokens shape).1 ++ ("\"" ++ replaceChar '"' "#quot;" label ++ "\"")
          ++ (shapeTokens shape).2) := by
  constructor
  · intro h
    rw [wrapNodeText_eq_tokens, escapeText_of_plain h, unwrap_wrap_middle]
  · intro h
    rw [wrapNodeText_eq_tokens]
    unfold escapeText
    rw [h]
    rfl

/-- C8 witness: the plain label `Start` round-trips through the stadium
shape, and the quoted label `say "hi"` serializes to the entity-escaped
quoted form in the rectangle shape. -/
theorem wrapNodeText_roundTrip_witness :
    (hasSpecialChar "Start" = false ∧
      unwrapNodeText .stadium (wrapNodeText "Start" .stadium) = "Start") ∧
    (hasSpecialChar "say \"hi\"" = true ∧
      wrapNodeText "say \"hi\"" .rectangle =
        (shapeTokens .rectangle).1 ++
          ("\"" ++ replaceChar '"' "#quot;" "say \"hi\"" ++ "\"") ++
          (shapeTokens .rectangle).2) :=
  ⟨⟨by decide, (wrapNodeText_roundTrip "Start" .stadium).1 (by decide)⟩,
   ⟨by decide, (wrapNodeText_roundTrip "say \"hi\"" .rectangle).2 (by decide)⟩⟩

/-- C9: `generate` emits its sections in a fixed order — the optional
init directive, the flowchart direction line, one line per node, one line
per edge, the subgraph blocks, the class-style lines, the link-style
lines, and finally one click line per node that has a click binding. -/
theorem generate_emission_order (d : FlowchartDefinition) :
    generate d = joinSep "\n"
      ((if d.init.isSome then [generateInitDirective d.init] else []) ++
       ["flowchart " ++ dirToString d.direction] ++
       d.nodes.map (fun n => "    " ++ generateNode n) ++
       d.edges.map (fun e => "    " ++ generateEdge e) ++
       (match d.subgraphs with
        | some sgs => (sgs.map generateSubgraph).flatten
        | none => []) ++
       (match d.styles with
        | some ss => ss.map (fun s => "    " ++ generateStyleDef s)
        | none => []) ++
       (match d.linkStyles with
        | some ls => ls.map (fun l => "    " ++ generateLinkStyle l)
        | none => []) ++
       (d.nodes.filter (fun n => n.click.isSome)).map
         (fun n => "    " ++ generateClickEvent n)) :=
  generate_eq_sections d

/-- C10: an edge whose label is the empty string serializes exactly like
an edge with no label — `generateEdge` emits the `|label|` segment only
for a non-empty label, and the shared output is `from <arrow> to`. -/
theorem generateEdge_empty_label_eq_absent (fro tgt : String) (st : Option EdgeStyle) :
    generateEdge { fro := fro, to' := tgt, style := st, label := some "" } =
      generateEdge { fro := fro, to' := tgt, style := st } ∧
    generateEdge { fro := fro, to' := tgt, style := st } =
      fro ++ " " ++ getArrowSyntax (st.getD .solid) ++ " " ++ tgt ∧
    ∀ l : String, l ≠ "" →
      generateEdge { fro := fro, to' := tgt, style := st, label := some l } =
        fro ++ " " ++ getArrowSyntax (st.getD .solid) ++ "|" ++
          escapeEdgeLabel l ++ "| " ++ tgt := by
  refine ⟨rfl, rfl, ?_⟩
  intro l hl
  simp [generateEdge, hl]

/-- C10 witness: the empty and absent labels agree on a dotted edge from
A to B, and the non-empty label `hi` produces the `|hi|` segment. -/
theorem generateEdge_empty_label_eq_absent_witness :
    generateEdge { fro := "A", to' := "B", style := some EdgeStyle.dotted, label := some "" } =
      generateEdge { fro := "A", to' := "B", style := some EdgeStyle.dotted } ∧
    (("hi" : String) ≠ "" ∧
      generateEdge { fro := "A", to' := "B", style := some EdgeStyle.dotted, label := some "hi" } =
        "A" ++ " " ++ getArrowSyntax ((some EdgeStyle.dotted).getD .solid) ++ "|" ++
          escapeEdgeLabel "hi" ++ "| " ++ "B") :=
  ⟨(generateEdge_empty_label_eq_absent "A" "B" (some EdgeStyle.dotted)).1,
   ⟨by decide,
    (generateEdge_empty_label_eq_absent "A" "B" (some EdgeStyle.dotted)).2.2 "hi" (by decide)⟩⟩
